import Mathlib

/-!
Verification of the Netflix recommendation engine (`netflix_rec.py`).

The embedding models:
* `TitleRecord` — one catalog row after `load_netflix_data` cleaning
  (`release_year` coerced with `errors='coerce'`, so a failed parse is the
  `none` (NaN) sentinel; `listed_in`/`director`/`country` filled with `""`).
* `get_smart_recommendations` — the filter/score/sort/truncate pipeline.
  Rows are carried as `Nat × TitleRecord`, the `Nat` being the pandas row
  index, which pandas preserves through filtering and sorting.
* `get_dropdown_options` — the dropdown vocabularies with their count
  thresholds.
* `analyze_netflix_data` — the genre/country tallies.

`pandas.Series.str.contains` defaults to `regex=True`, so the filter strings
are regular expressions; `str_contains` below models `re.search` with
`re.IGNORECASE` on the fragment of patterns consisting of literal
characters and the `.` wildcard (`inModelledFragment`).  Every theorem
whose content depends on the matcher's semantics carries an in-fragment
(or metacharacter-free) hypothesis, and on that domain the model coincides
with Python.  Outside the fragment the total function `str_contains` is an
artifact of totalization and proves nothing about the program — real
patterns there carry quantifier/group/class/anchor semantics or make
`re.compile` raise `re.error`; the raise path is modelled soundly by
`re_compile_fails` and surfaces in `get_smart_recommendations_exc`.

The multi-key `sort_values(..., ascending=[False, False])` goes through
NumPy's `lexsort`, a stable sort; a stable sort's output is uniquely
determined by the comparison order, so it is embedded here as Mathlib's
stable `List.insertionSort` over the two-key descending order.  Python's
`sorted` on strings is likewise a stable lexicographic sort.
-/

/-- One row of the catalog after the cleaning in `load_netflix_data`:
`release_year` is `pd.to_numeric(..., errors='coerce')`, so an unparsable
year is the `none` (NaN) sentinel; the three string fields have been
`fillna('')`-ed. -/
structure TitleRecord where
  title : String
  type : String
  release_year : Option Int
  listed_in : String
  director : String
  country : String
deriving DecidableEq, Repr

/-- A token of the regular-expression fragment used to model Python
`re.search`: either the `.` wildcard or a literal character. -/
inductive RTok where
  | dot : RTok
  | lit : Char → RTok
deriving DecidableEq, Repr

/-- The regular-expression metacharacters of Python `re`: the characters
`. ^ $ * + ? \x7b \x7d [ ] \ | ( )` (the brace pair written here as codes).
Any other character stands for itself in a pattern. -/
def isRegexMeta (ch : Char) : Bool :=
  ch == '.' || ch == '^' || ch == '$' || ch == '*' || ch == '+' || ch == '?' ||
  ch == '\x7b' || ch == '\x7d' || ch == '[' || ch == ']' || ch == '\\' ||
  ch == '|' || ch == '(' || ch == ')'

/-- Whether a pattern lies in the modelled fragment of `re`: literal
characters and the `.` wildcard only.  On this fragment the matcher below
coincides with Python; theorems that depend on matcher semantics assume
it. -/
def inModelledFragment (p : String) : Bool :=
  p.data.all (fun ch => !isRegexMeta ch || ch == '.')

/-- Compile an in-fragment pattern string the way `re` reads it: `.`
becomes the wildcard, every other character a literal.  This is the
compiler for the modelled fragment only; applied to a pattern containing
other metacharacters (quantifiers, groups, classes, anchors, escapes,
alternation) it misreads them as literals, so no theorem below invokes the
matcher outside the fragment. -/
def parsePattern (p : String) : List RTok :=
  p.data.map (fun c => if c = '.' then RTok.dot else RTok.lit c)

/-- One regex token against one character, under `re.IGNORECASE`
(`case=False` in `str.contains`). -/
def tokMatch : RTok → Char → Bool
  | RTok.dot, _ => true
  | RTok.lit c, d => c.toLower = d.toLower

/-- Whether the whole token list matches a prefix of the character list. -/
def matchHere : List RTok → List Char → Bool
  | [], _ => true
  | _ :: _, [] => false
  | t :: ts, c :: cs => tokMatch t c && matchHere ts cs

/-- `re.search` semantics: the pattern matches at some position. -/
def reSearch (ts : List RTok) : List Char → Bool
  | [] => matchHere ts []
  | c :: cs => matchHere ts (c :: cs) || reSearch ts cs

/-- Model of `series.str.contains(pat, case=False, na=False)` applied to
the string `s`: case-insensitive `re.search` of `pat` in `s`.  Faithful to
pandas exactly for patterns satisfying `inModelledFragment`; its values on
other patterns are a totalization artifact (pandas would apply full regex
semantics, or raise `re.error` — see `re_compile_fails`), and no theorem
below relies on them. -/
def str_contains (s pat : String) : Bool :=
  reSearch (parsePattern pat) s.data

/-- A sound under-approximation of the patterns on which Python
`re.compile` raises `re.error`: an unbalanced group parenthesis in a
pattern free of escapes, character classes and `(?`-extensions (Python:
"missing ), unterminated subpattern" / "unbalanced parenthesis"), or a
leading quantifier (Python: "nothing to repeat").  `true` means the
program raises inside `str.contains`; `false` draws no conclusion. -/
def re_compile_fails (p : String) : Bool :=
  (!p.data.contains '\\' && !p.data.contains '[' && !p.data.contains '?' &&
    p.data.count '(' != p.data.count ')') ||
  (match p.data with
   | [] => false
   | c :: _ => c == '*' || c == '+' || c == '?')

/-- Whether a supplied (present) filter string is a certainly-invalid
pattern. -/
def optPatternFails (o : Option String) : Bool :=
  match o with
  | none => false
  | some p => re_compile_fails p

/-- Literal substring containment on character lists (`needle in haystack`
for Python strings). -/
def subSearch (n : List Char) : List Char → Bool
  | [] => n.isPrefixOf []
  | c :: t => n.isPrefixOf (c :: t) || subSearch n t

/-- Modelled from the spec: the spec's reading of the filter ("genre is a
case-insensitive substring of the record's listed_in", likewise for
director and country) — plain literal substring containment after
lower-casing, no pattern interpretation.  Kept separate from
`str_contains`, the embedding of what the code actually calls, so the two
can be compared. -/
def spec_substring_match (pat s : String) : Bool :=
  subSearch (pat.data.map Char.toLower) (s.data.map Char.toLower)

/-- An optional filter string against a field: an absent (or empty, hence
falsy) filter passes everything — the `if genre:` guards — and a present
one goes through `str.contains`. -/
def matchOpt (filt : Option String) (field : String) : Bool :=
  match filt with
  | none => true
  | some g => str_contains field g

/-- `release_year >= bound` under pandas semantics: a NaN year compares
`False`. -/
def yearAtLeast (oy : Option Int) (bound : Int) : Bool :=
  match oy with
  | some y => decide (bound ≤ y)
  | none => false

/-- The `content_type` filter: `"Both"` passes everything, otherwise the
`type` column must equal it. -/
def typePass (t content_type : String) : Bool :=
  content_type == "Both" || t == content_type

/-- The whole predicate filter of `get_smart_recommendations` (lines
103–117): genre, director, country, content type, then minimum year.  The
five masks are applied in sequence in the code; their conjunction selects
the same rows in the same order. -/
def passesFilter (genre director country : Option String)
    (content_type : String) (min_year : Int) (r : TitleRecord) : Bool :=
  matchOpt genre r.listed_in &&
  matchOpt director r.director &&
  matchOpt country r.country &&
  typePass r.type content_type &&
  yearAtLeast r.release_year min_year

/-- The cumulative "newer content bonus" (lines 124–127): three separate
`+=` masks, so the conditions overlap. -/
def recencyScore (oy : Option Int) : ℚ :=
  (if yearAtLeast oy 2018 then 3 else 0) +
  (if yearAtLeast oy 2015 then 2 else 0) +
  (if yearAtLeast oy 2010 then 1 else 0)

/-- `genre_count = listed_in.str.count(',') + 1` (line 130). -/
def genre_count (s : String) : Nat :=
  s.data.count ',' + 1

/-- Modelled from the spec: `recency_bonus(y) = 3 if y≥2018, else 2 if
y≥2015, else 1 if y≥2010, else 0` — the tiered (mutually exclusive)
reading, kept separate from `recencyScore`, the embedding of the code's
cumulative masks, so the two can be compared. -/
def recency_bonus (y : Int) : ℚ :=
  if 2018 ≤ y then 3 else if 2015 ≤ y then 2 else if 2010 ≤ y then 1 else 0

/-- `popularity_score` as computed on every surviving row (lines 122–131):
recency bonus plus `genre_count * 0.5`.  The float arithmetic involved is
exact (small halves), so `ℚ` represents it without error. -/
def popularity_score (r : TitleRecord) : ℚ :=
  recencyScore r.release_year + (genre_count r.listed_in : ℚ) * (1 / 2)

/-- Descending-year comparison on the possibly-NaN year column, NaN placed
last (`na_position='last'`). -/
def yearGE (a b : Option Int) : Bool :=
  match a, b with
  | some x, some y => decide (y ≤ x)
  | some _, none => true
  | none, some _ => false
  | none, none => true

/-- The two-key sort order of line 134: `popularity_score` descending, then
`release_year` descending.  `rowLE p q` means row `p` may come before row
`q`; ties on both keys compare `true` both ways. -/
def rowLE (p q : Nat × TitleRecord) : Bool :=
  if popularity_score p.2 = popularity_score q.2 then
    yearGE p.2.release_year q.2.release_year
  else
    decide (popularity_score q.2 < popularity_score p.2)

/-- `sort_values(['popularity_score', 'release_year'], ascending=[False,
False])`: a stable sort by the two-key descending order (pandas multi-key
sorts run NumPy's stable `lexsort`). -/
def sortedRows (l : List (Nat × TitleRecord)) : List (Nat × TitleRecord) :=
  List.insertionSort (fun p q => rowLE p q = true) l

/-- `DataFrame.head(n)` semantics: first `n` rows when `n ≥ 0`, all but the
last `|n|` rows when `n < 0`. -/
def dfHead (n : Int) (l : List α) : List α :=
  if 0 ≤ n then l.take n.toNat else l.take (l.length - (-n).toNat)

/-- The rows surviving the predicate filter, in catalog order, each paired
with its original pandas row index. -/
def filteredRows (catalog : List TitleRecord) (genre director country : Option String)
    (content_type : String) (min_year : Int) : List (Nat × TitleRecord) :=
  catalog.enum.filter (fun p => passesFilter genre director country content_type min_year p.2)

/-- `get_smart_recommendations` (lines 100–136): filter, and when the
result is non-empty, score, sort by the two descending keys (stably) and
truncate with `head(count)`; an empty filtered frame is returned as is. -/
def get_smart_recommendations (catalog : List TitleRecord)
    (genre director country : Option String) (content_type : String)
    (count : Int) (min_year : Int) : List (Nat × TitleRecord) :=
  let filtered := filteredRows catalog genre director country content_type min_year
  if filtered.isEmpty then filtered
  else dfHead count (sortedRows filtered)

/-- `get_smart_recommendations` including the exception behaviour of the
regex compilation inside `str.contains` (pandas compiles each supplied
filter string): when a supplied filter string is a certainly-invalid
pattern the call raises `re.error` out of the filter step and produces no
result; otherwise it returns the pipeline's result. -/
def get_smart_recommendations_exc (catalog : List TitleRecord)
    (genre director country : Option String) (content_type : String)
    (count : Int) (min_year : Int) : Except String (List (Nat × TitleRecord)) :=
  if optPatternFails genre || optPatternFails director || optPatternFails country then
    Except.error "re.error"
  else
    Except.ok (get_smart_recommendations catalog genre director country content_type
      count min_year)

/-- Python `s.split(',')` on the character list: always at least one piece,
so the empty string yields `[[]]`. -/
def splitOnComma : List Char → List (List Char)
  | [] => [[]]
  | c :: cs =>
    if c = ',' then [] :: splitOnComma cs
    else
      match splitOnComma cs with
      | [] => [[c]]
      | t :: ts => (c :: t) :: ts

/-- Python `s.strip()`: drop whitespace from both ends. -/
def trimChars (l : List Char) : List Char :=
  ((l.dropWhile Char.isWhitespace).reverse.dropWhile Char.isWhitespace).reverse

/-- `[g.strip() for g in s.split(',')]` — split a multi-valued field on
commas and trim each token. -/
def splitStrip (s : String) : List String :=
  (splitOnComma s.data).map (fun t => (trimChars t).asString)

/-- Python `<` on strings: lexicographic comparison of the code points. -/
def charListLT : List Char → List Char → Bool
  | [], [] => false
  | [], _ :: _ => true
  | _ :: _, [] => false
  | a :: as, b :: bs => decide (a < b) || (a = b && charListLT as bs)

/-- The non-strict order `sorted` arranges strings by. -/
def strLE (a b : String) : Bool :=
  !(charListLT b.data a.data)

/-- Python `sorted` on strings: stable lexicographic sort. -/
def sortedStrings (l : List String) : List String :=
  List.insertionSort (fun a b => strLE a b = true) l

namespace get_dropdown_options

/-- Lines 60–64: genre tokens over the catalog, skipping empty
`listed_in` fields (`if genres:`). -/
def all_genres (catalog : List TitleRecord) : List String :=
  (catalog.filter (fun r => r.listed_in ≠ "")).flatMap (fun r => splitStrip r.listed_in)

/-- Lines 70–74: director tokens, skipping empty `director` fields. -/
def all_directors (catalog : List TitleRecord) : List String :=
  (catalog.filter (fun r => r.director ≠ "")).flatMap (fun r => splitStrip r.director)

/-- Lines 83–87: country tokens, skipping empty `country` fields. -/
def all_countries (catalog : List TitleRecord) : List String :=
  (catalog.filter (fun r => r.country ≠ "")).flatMap (fun r => splitStrip r.country)

/-- `Counter(all_directors)[d]`. -/
def director_counts (catalog : List TitleRecord) (d : String) : Nat :=
  (all_directors catalog).count d

/-- `Counter(all_countries)[c]`. -/
def country_counts (catalog : List TitleRecord) (c : String) : Nat :=
  (all_countries catalog).count c

/-- Line 79: directors kept only when they appear in more than 1 record. -/
def popular_directors (catalog : List TitleRecord) : List String :=
  (all_directors catalog).dedup.filter (fun d => 1 < director_counts catalog d)

/-- Line 92: countries kept only when they appear in more than 5 titles. -/
def popular_countries (catalog : List TitleRecord) : List String :=
  (all_countries catalog).dedup.filter (fun c => 5 < country_counts catalog c)

/-- Line 80: `options['directors'] = [''] + sorted(popular_directors)`. -/
def options_directors (catalog : List TitleRecord) : List String :=
  "" :: sortedStrings (popular_directors catalog)

/-- Line 93: `options['countries'] = [''] + sorted(popular_countries)`. -/
def options_countries (catalog : List TitleRecord) : List String :=
  "" :: sortedStrings (popular_countries catalog)

end get_dropdown_options

namespace analyze_netflix_data

/-- Lines 149–152: genre tokens for the analyzer — NO emptiness guard, so
an empty `listed_in` splits into the single token `""`. -/
def all_genres (data : List TitleRecord) : List String :=
  data.flatMap (fun r => splitStrip r.listed_in)

/-- Lines 160–163: country tokens for the analyzer, again without the
emptiness guard. -/
def all_countries (data : List TitleRecord) : List String :=
  data.flatMap (fun r => splitStrip r.country)

end analyze_netflix_data

example : str_contains "Dramas" "Nonexistent" = false := by decide
example : str_contains "Dramas" "." = true := by decide
example : spec_substring_match "." "Dramas" = false := by decide
example : str_contains "International Movies" "movies" = true := by decide
example : genre_count "" = 1 := by decide
example : recencyScore (some 2019) = 6 := by norm_num [recencyScore, yearAtLeast]
example : splitStrip "" = [""] := by decide
example : splitStrip "A, B" = ["A", "B"] := by decide
example : splitStrip "X," = ["X", ""] := by decide
example : sortedStrings ["X", "B", "A"] = ["A", "B", "X"] := by decide

/-! ## General lemmas about the pipeline -/

theorem dfHead_eq_take (n : Int) (l : List α) : ∃ k, dfHead n l = l.take k := by
  unfold dfHead
  split
  · exact ⟨n.toNat, rfl⟩
  · exact ⟨l.length - (-n).toNat, rfl⟩

theorem sortedRows_perm (l : List (Nat × TitleRecord)) : List.Perm (sortedRows l) l :=
  List.perm_insertionSort _ l

theorem mem_sortedRows {l : List (Nat × TitleRecord)} {p : Nat × TitleRecord} :
    p ∈ sortedRows l ↔ p ∈ l :=
  List.mem_insertionSort _

theorem mem_result_mem_filteredRows {catalog : List TitleRecord}
    {g d c : Option String} {ct : String} {count my : Int} {p : Nat × TitleRecord}
    (hp : p ∈ get_smart_recommendations catalog g d c ct count my) :
    p ∈ filteredRows catalog g d c ct my := by
  unfold get_smart_recommendations at hp
  by_cases hE : (filteredRows catalog g d c ct my).isEmpty
  · simpa [hE] using hp
  · simp only [hE, if_false] at hp
    obtain ⟨k, hk⟩ := dfHead_eq_take count (sortedRows (filteredRows catalog g d c ct my))
    rw [hk] at hp
    exact mem_sortedRows.mp ((List.take_sublist _ _).subset hp)

theorem mem_filteredRows_passes {catalog : List TitleRecord}
    {g d c : Option String} {ct : String} {my : Int} {p : Nat × TitleRecord}
    (hp : p ∈ filteredRows catalog g d c ct my) :
    passesFilter g d c ct my p.2 = true := by
  unfold filteredRows at hp
  exact (List.mem_filter.mp hp).2

theorem le_fst_of_mem_enumFrom {α : Type _} {p : Nat × α} :
    ∀ {n : Nat} {l : List α}, p ∈ List.enumFrom n l → n ≤ p.1 := by
  intro n l
  induction l generalizing n with
  | nil => intro h; simp at h
  | cons a t ih =>
    intro h
    rcases (by simpa using h : p = (n, a) ∨ p ∈ List.enumFrom (n + 1) t) with h | h
    · subst h; exact Nat.le_refl _
    · exact Nat.le_of_succ_le (ih h)

theorem snd_mem_of_mem_enumFrom {α : Type _} {p : Nat × α} :
    ∀ {n : Nat} {l : List α}, p ∈ List.enumFrom n l → p.2 ∈ l := by
  intro n l
  induction l generalizing n with
  | nil => intro h; simp at h
  | cons a t ih =>
    intro h
    rcases (by simpa using h : p = (n, a) ∨ p ∈ List.enumFrom (n + 1) t) with h | h
    · subst h; exact List.mem_cons_self _ _
    · exact List.mem_cons_of_mem _ (ih h)

theorem pairwise_fst_lt_enumFrom {α : Type _} (n : Nat) (l : List α) :
    (List.enumFrom n l).Pairwise (fun p q => p.1 < q.1) := by
  induction l generalizing n with
  | nil => simp
  | cons a t ih =>
    simp only [List.enumFrom_cons]
    exact List.Pairwise.cons
      (fun q hq => Nat.lt_of_lt_of_le (Nat.lt_succ_self n) (le_fst_of_mem_enumFrom hq))
      (ih (n + 1))

theorem pairwise_fst_lt_filteredRows (catalog : List TitleRecord)
    (g d c : Option String) (ct : String) (my : Int) :
    (filteredRows catalog g d c ct my).Pairwise (fun p q => p.1 < q.1) :=
  (pairwise_fst_lt_enumFrom 0 catalog).sublist (List.filter_sublist _)

/-! ## Concrete records used by witnesses and counterexamples -/

/-- A 2019 single-genre movie. -/
def exA : TitleRecord :=
  ⟨"A", "Movie", some 2019, "Dramas", "X", "US"⟩

/-- A movie whose `listed_in` is the empty string. -/
def exEmptyGenre : TitleRecord :=
  ⟨"E", "Movie", some 2000, "", "X", "US"⟩

/-- Two rows with identical `popularity_score` and `release_year`. -/
def rTieA : TitleRecord :=
  ⟨"TieA", "Movie", some 2020, "Dramas", "X", "US"⟩

/-- See `rTieA`; only the title and director differ. -/
def rTieB : TitleRecord :=
  ⟨"TieB", "Movie", some 2020, "Dramas", "Y", "US"⟩

/-! ## C5: result length -/

/-- C5: for every catalog and every `recommend` call (the interface demands
`limit ≥ 1`), the length of the returned sequence equals
`min(limit, number of records passing the predicate filter)`; in
particular it never exceeds `limit`. -/
theorem result_length_min (catalog : List TitleRecord) (g d c : Option String)
    (ct : String) (count my : Int) (h : 1 ≤ count) :
    (get_smart_recommendations catalog g d c ct count my).length
      = min count.toNat (filteredRows catalog g d c ct my).length := by
  unfold get_smart_recommendations
  cases hF : filteredRows catalog g d c ct my with
  | nil => simp
  | cons a t =>
    simp only [List.isEmpty_cons, Bool.false_eq_true, if_false]
    unfold dfHead
    rw [if_pos (by omega : (0:Int) ≤ count)]
    rw [List.length_take, (sortedRows_perm (a :: t)).length_eq]

/-- Witness for C5 at a one-record catalog with `limit = 1`. -/
theorem result_length_min_witness :
    (get_smart_recommendations [exA] none none none "Both" 1 1900).length
      = min (Int.toNat 1) (filteredRows [exA] none none none "Both" 1900).length :=
  result_length_min [exA] none none none "Both" 1 1900 (by decide)

/-! ## C6: minimum-year filter soundness -/

/-- C6: every record returned by `recommend` has a known (non-NaN)
`release_year`, and that year is at least `min_year`; rows whose year
failed to parse (the `none` sentinel) never appear in any result. -/
theorem result_year_at_least_min_year (catalog : List TitleRecord)
    (g d c : Option String) (ct : String) (count my : Int) (p : Nat × TitleRecord)
    (hp : p ∈ get_smart_recommendations catalog g d c ct count my) :
    ∃ y, p.2.release_year = some y ∧ my ≤ y := by
  have hps := mem_filteredRows_passes (mem_result_mem_filteredRows hp)
  unfold passesFilter at hps
  simp only [Bool.and_eq_true] at hps
  have hy := hps.2
  unfold yearAtLeast at hy
  cases hyr : p.2.release_year with
  | none => rw [hyr] at hy; cases hy
  | some y =>
    rw [hyr] at hy
    exact ⟨y, rfl, by simpa using hy⟩

/-- Witness for C6: the single surviving row of a concrete call. -/
theorem result_year_at_least_min_year_witness :
    ∃ y, (((0 : Nat), exA)).2.release_year = some y ∧ (1900 : Int) ≤ y :=
  result_year_at_least_min_year [exA] none none none "Both" 10 1900 (0, exA)
    (by decide)

/-! ## C9: an unmatched genre gives an empty result — within the fragment -/

theorem re_compile_ok_of_fragment {g : String}
    (h : inModelledFragment g = true) : re_compile_fails g = false := by
  unfold inModelledFragment at h
  rw [List.all_eq_true] at h
  have hno : ∀ ch : Char, isRegexMeta ch = true → ch ≠ '.' → ch ∉ g.data := by
    intro ch hmeta hne hm
    have h2 := h ch hm
    rw [hmeta] at h2
    simp at h2
    exact hne h2
  have h1 : g.data.count '(' = 0 :=
    List.count_eq_zero.mpr (hno '(' (by decide) (by decide))
  have h2 : g.data.count ')' = 0 :=
    List.count_eq_zero.mpr (hno ')' (by decide) (by decide))
  unfold re_compile_fails
  rw [h1, h2]
  simp only [bne_self_eq_false, Bool.and_false, Bool.false_or]
  cases hd : g.data with
  | nil => rfl
  | cons ch t =>
    have hcm : ch ∈ g.data := by rw [hd]; exact List.mem_cons_self ch t
    have hfr := h ch hcm
    have hc : ch ≠ '*' ∧ ch ≠ '+' ∧ ch ≠ '?' := by
      refine ⟨?_, ?_, ?_⟩ <;> intro hEq <;> rw [hEq] at hfr <;>
        simp [isRegexMeta] at hfr
    simp [hc.1, hc.2.1, hc.2.2]

/-- C9 (amended): on any non-empty catalog, a genre string that is a
well-formed pattern within the modelled fragment and matches no record
gives the ordinary empty result and no exception (`Except.ok []`); a
genre string that is an invalid regular expression instead raises
`re.error` inside the filter step and produces no result at all (see the
counterexample below). -/
theorem no_genre_match_returns_empty (catalog : List TitleRecord) (g : String)
    (ct : String) (count my : Int)
    (hne : catalog ≠ [])
    (hfrag : inModelledFragment g = true)
    (hno : ∀ r ∈ catalog, str_contains r.listed_in g = false) :
    get_smart_recommendations_exc catalog (some g) none none ct count my
      = Except.ok [] := by
  have hok : re_compile_fails g = false := re_compile_ok_of_fragment hfrag
  have hplain : get_smart_recommendations catalog (some g) none none ct count my = [] := by
    have hnil : filteredRows catalog (some g) none none ct my = [] := by
      unfold filteredRows
      rw [List.filter_eq_nil_iff]
      intro p hpmem
      have hmem : p.2 ∈ catalog := snd_mem_of_mem_enumFrom hpmem
      have hm : matchOpt (some g) p.2.listed_in = false := hno p.2 hmem
      unfold passesFilter
      rw [hm]
      simp
    unfold get_smart_recommendations
    rw [hnil]
    rfl
  simp only [get_smart_recommendations_exc, optPatternFails, hok, Bool.or_self,
    Bool.false_eq_true, if_false, hplain]

/-- Witness for C9: the genre "Nonexistent" against a one-record catalog. -/
theorem no_genre_match_returns_empty_witness :
    get_smart_recommendations_exc [exA] (some "Nonexistent") none none "Both" 10 1900
      = Except.ok [] :=
  no_genre_match_returns_empty [exA] "Nonexistent" "Both" 10 1900
    (by decide) (by decide) (by decide)

/-- Counterexample for C9 as stated: the genre `"("` matches no record
under the spec's own literal-substring reading, yet the call does not
return a normal empty sequence — `re.compile` raises `re.error`
("missing ), unterminated subpattern") inside the filter step, a signalled
failure. -/
theorem invalid_regex_raises_cex :
    spec_substring_match "(" exA.listed_in = false ∧
    get_smart_recommendations_exc [exA] (some "(") none none "Both" 10 1900
      = Except.error "re.error" :=
  ⟨by decide, rfl⟩

/-! ## C4: there is no parameter validation -/

/-- C4 (amended): `recommend` performs no query-parameter validation.  A
call with `limit ≤ 0` is not rejected: the predicate filter and scoring
run normally and `head` truncates — `limit = 0` yields the empty result
and a negative limit drops the last `|limit|` ranked rows; every returned
row passed the filter.  No error value exists anywhere in the function. -/
theorem nonpositive_limit_no_validation (catalog : List TitleRecord)
    (g d c : Option String) (ct : String) (count my : Int) (hc : count ≤ 0) :
    (count = 0 → get_smart_recommendations catalog g d c ct count my = []) ∧
    (count < 0 → (get_smart_recommendations catalog g d c ct count my).length
        = (filteredRows catalog g d c ct my).length - (-count).toNat) ∧
    (∀ p ∈ get_smart_recommendations catalog g d c ct count my,
      passesFilter g d c ct my p.2 = true) := by
  refine ⟨?_, ?_, ?_⟩
  · intro h0
    subst h0
    unfold get_smart_recommendations
    cases hF : filteredRows catalog g d c ct my with
    | nil => simp
    | cons a t =>
      simp only [List.isEmpty_cons, Bool.false_eq_true, if_false]
      unfold dfHead
      rw [if_pos (by omega : (0:Int) ≤ 0)]
      simp
  · intro hneg
    unfold get_smart_recommendations
    cases hF : filteredRows catalog g d c ct my with
    | nil => simp
    | cons a t =>
      simp only [List.isEmpty_cons, Bool.false_eq_true, if_false]
      unfold dfHead
      rw [if_neg (by omega : ¬ (0:Int) ≤ count)]
      rw [List.length_take, (sortedRows_perm (a :: t)).length_eq]
      exact Nat.min_eq_left (Nat.sub_le _ _)
  · intro p hp
    exact mem_filteredRows_passes (mem_result_mem_filteredRows hp)

/-- Witness for C4 at `limit = -1` on a two-record catalog. -/
theorem nonpositive_limit_no_validation_witness :
    (((-1 : Int) = 0 →
        get_smart_recommendations [rTieA, rTieB] none none none "Both" (-1) 1900 = []) ∧
      ((-1 : Int) < 0 →
        (get_smart_recommendations [rTieA, rTieB] none none none "Both" (-1) 1900).length
          = (filteredRows [rTieA, rTieB] none none none "Both" 1900).length
              - (-(-1 : Int)).toNat) ∧
      (∀ p ∈ get_smart_recommendations [rTieA, rTieB] none none none "Both" (-1) 1900,
        passesFilter none none none "Both" 1900 p.2 = true)) :=
  nonpositive_limit_no_validation [rTieA, rTieB] none none none "Both" (-1) 1900
    (by decide)

/-- Counterexample for C4 as stated: a call with `limit = -1 ≤ 0` is not
rejected before the filter runs — it produces a non-empty filtered,
scored, ranked result. -/
theorem negative_limit_result_cex :
    get_smart_recommendations [rTieA, rTieB] none none none "Both" (-1) 1900
      = [((0 : Nat), rTieA)] := by
  have h1 : popularity_score rTieA = popularity_score rTieB := rfl
  have h2 : yearGE rTieA.release_year rTieB.release_year = true := by decide
  have h3 : yearAtLeast rTieA.release_year 1900 = true := by decide
  have h4 : yearAtLeast rTieB.release_year 1900 = true := by decide
  simp [get_smart_recommendations, filteredRows, List.enum, passesFilter, matchOpt,
    typePass, h1, h2, h3, h4, sortedRows, List.insertionSort, List.orderedInsert,
    rowLE, dfHead]

/-! ## C1: the recency bonus is cumulative, not tiered -/

/-- C1 (amended): the recency part of `popularity_score` is the sum of the
three overlapping masks, hence 6 for `release_year ≥ 2018`, 3 for
2015–2017, 1 for 2010–2014 and 0 before 2010 — not the tiered 3/2/1/0. -/
theorem recencyScore_cumulative (y : Int) :
    recencyScore (some y)
      = if 2018 ≤ y then 6 else if 2015 ≤ y then 3 else if 2010 ≤ y then 1 else 0 := by
  unfold recencyScore yearAtLeast
  simp only [decide_eq_true_eq]
  split_ifs <;> try norm_num
  all_goals omega

/-- Counterexample for C1 as stated: the 2019 record `exA` survives a
concrete `recommend` call, yet its score is not
`recency_bonus(2019) + 0.5 · genre_count` (it is `6.5`, not `3.5`). -/
theorem recency_not_tiered_cex :
    get_smart_recommendations [exA] none none none "Both" 10 1900 = [((0 : Nat), exA)] ∧
    popularity_score exA ≠ recency_bonus 2019 + (genre_count exA.listed_in : ℚ) * (1 / 2) := by
  constructor
  · decide
  · have hg : genre_count "Dramas" = 1 := by decide
    norm_num [popularity_score, exA, recencyScore, yearAtLeast, recency_bonus, hg]

/-! ## C2: empty listed_in yields genre_count 1, not 0 -/

/-- C2 (amended): for every surviving record whose `listed_in` is the
empty string, `genre_count` is `count(',') + 1 = 1` (not 0), so the genre
term contributes `0.5` to `popularity_score`. -/
theorem empty_listed_in_half_point (catalog : List TitleRecord)
    (g d c : Option String) (ct : String) (count my : Int) (p : Nat × TitleRecord)
    (hp : p ∈ get_smart_recommendations catalog g d c ct count my)
    (he : p.2.listed_in = "") :
    genre_count p.2.listed_in = 1 ∧
    popularity_score p.2 = recencyScore p.2.release_year + 1 / 2 := by
  have h1 : genre_count "" = 1 := by decide
  constructor
  · rw [he]; exact h1
  · unfold popularity_score
    rw [he, h1]
    norm_num

/-- Witness for C2: a surviving record with empty `listed_in`. -/
theorem empty_listed_in_half_point_witness :
    genre_count (((0 : Nat), exEmptyGenre)).2.listed_in = 1 ∧
    popularity_score (((0 : Nat), exEmptyGenre)).2
      = recencyScore (((0 : Nat), exEmptyGenre)).2.release_year + 1 / 2 :=
  empty_listed_in_half_point [exEmptyGenre] none none none "Both" 10 1900
    (0, exEmptyGenre) (by decide) (by decide)

/-- Counterexample for C2 as stated: the empty-`listed_in` record survives
a concrete call and its `genre_count` is not 0. -/
theorem empty_listed_in_genre_count_cex :
    get_smart_recommendations [exEmptyGenre] none none none "Both" 10 1900
      = [((0 : Nat), exEmptyGenre)] ∧
    genre_count exEmptyGenre.listed_in ≠ 0 := by
  exact ⟨by decide, by decide⟩

/-! ## C3: the filter strings are regexes, not literal substrings -/

theorem matchHere_parse_eq {n : List Char} (h : '.' ∉ n) :
    ∀ cs : List Char,
      matchHere (n.map (fun c => if c = '.' then RTok.dot else RTok.lit c)) cs
        = (n.map Char.toLower).isPrefixOf (cs.map Char.toLower) := by
  induction n with
  | nil => intro cs; simp [matchHere, List.isPrefixOf]
  | cons a n' ih =>
    have ha : a ≠ '.' := fun hEq => h (hEq ▸ List.mem_cons_self a n')
    have hn' : '.' ∉ n' := fun hm => h (List.mem_cons_of_mem a hm)
    intro cs
    rw [List.map_cons, if_neg ha]
    cases cs with
    | nil => simp [matchHere, List.isPrefixOf]
    | cons c cs' =>
      simp only [matchHere, tokMatch, List.map_cons, List.isPrefixOf, ih hn' cs']
      by_cases hac : a.toLower = c.toLower
      · simp [hac]
      · simp [hac, Ne.symm hac]

theorem reSearch_parse_eq {n : List Char} (h : '.' ∉ n) :
    ∀ cs : List Char,
      reSearch (n.map (fun c => if c = '.' then RTok.dot else RTok.lit c)) cs
        = subSearch (n.map Char.toLower) (cs.map Char.toLower) := by
  intro cs
  induction cs with
  | nil =>
    show matchHere _ [] = (n.map Char.toLower).isPrefixOf []
    simpa using matchHere_parse_eq h []
  | cons c cs' ih =>
    simp only [reSearch, subSearch, List.map_cons, ih]
    rw [← List.map_cons, matchHere_parse_eq h (c :: cs'), List.map_cons]

/-- C3 (amended): a filter string is interpreted as a regular expression
(`str.contains` defaults to `regex=True`), not as a literal substring.
Matching agrees with case-insensitive literal substring containment
whenever the filter string contains none of the regex metacharacters
(`isRegexMeta`); a metacharacter-bearing filter string is pattern-matched
(see the counterexample below) or, when invalid, raises `re.error`. -/
theorem str_contains_eq_substring_of_no_meta (pat s : String)
    (h : pat.data.all (fun ch => !isRegexMeta ch) = true) :
    str_contains s pat = spec_substring_match pat s := by
  have hdot : '.' ∉ pat.data := by
    intro hm
    have h2 := List.all_eq_true.mp h _ hm
    simp [isRegexMeta] at h2
  unfold str_contains spec_substring_match parsePattern
  exact reSearch_parse_eq hdot s.data

/-- Witness for C3 on a metacharacter-free pattern. -/
theorem str_contains_eq_substring_of_no_meta_witness :
    str_contains "More Dramas!" "Dramas" = spec_substring_match "Dramas" "More Dramas!" :=
  str_contains_eq_substring_of_no_meta "Dramas" "More Dramas!" (by decide)

/-- Counterexample for C3 as stated: with the filter string `"."` the
record `exA` (listed_in `"Dramas"`) passes the genre predicate and is
returned, although `"."` is not a literal substring of `"Dramas"`. -/
theorem regex_filter_cex :
    get_smart_recommendations [exA] (some ".") none none "Both" 10 1900
      = [((0 : Nat), exA)] ∧
    spec_substring_match "." exA.listed_in = false :=
  ⟨by decide, by decide⟩

/-! ## C7: dropdown count thresholds -/

theorem mem_threshold_filter {l : List String} {k : Nat} {d : String} :
    d ∈ l.dedup.filter (fun x => k < l.count x) ↔ k < l.count d := by
  rw [List.mem_filter]
  simp only [decide_eq_true_eq, List.mem_dedup]
  constructor
  · exact fun h => h.2
  · intro h
    exact ⟨List.count_pos_iff.mp (Nat.lt_of_le_of_lt (Nat.zero_le k) h), h⟩

/-- C7: a (non-sentinel) director token appears in the directors dropdown
iff its occurrence count is strictly greater than 1, and a country token
appears in the countries dropdown iff its count is strictly greater
than 5.  (The leading `""` entry is the fixed "no filter" sentinel.) -/
theorem dropdown_threshold_iff (catalog : List TitleRecord) (d c : String)
    (hd : d ≠ "") (hc : c ≠ "") :
    (d ∈ get_dropdown_options.options_directors catalog
        ↔ 1 < get_dropdown_options.director_counts catalog d) ∧
    (c ∈ get_dropdown_options.options_countries catalog
        ↔ 5 < get_dropdown_options.country_counts catalog c) := by
  constructor
  · rw [get_dropdown_options.options_directors]
    rw [List.mem_cons]
    rw [show sortedStrings (get_dropdown_options.popular_directors catalog)
          = List.insertionSort (fun a b => strLE a b = true)
              (get_dropdown_options.popular_directors catalog) from rfl]
    rw [List.mem_insertionSort]
    rw [get_dropdown_options.popular_directors]
    simp only [get_dropdown_options.director_counts]
    rw [mem_threshold_filter]
    simp [hd]
  · rw [get_dropdown_options.options_countries]
    rw [List.mem_cons]
    rw [show sortedStrings (get_dropdown_options.popular_countries catalog)
          = List.insertionSort (fun a b => strLE a b = true)
              (get_dropdown_options.popular_countries catalog) from rfl]
    rw [List.mem_insertionSort]
    rw [get_dropdown_options.popular_countries]
    simp only [get_dropdown_options.country_counts]
    rw [mem_threshold_filter]
    simp [hc]

/-- A catalog with one director in two records and one country in six. -/
def cat7 : List TitleRecord :=
  [⟨"t1", "Movie", some 2000, "Dramas", "X", "US"⟩,
   ⟨"t2", "Movie", some 2001, "Dramas", "X", "US"⟩,
   ⟨"t3", "Movie", some 2002, "Dramas", "", "US"⟩,
   ⟨"t4", "Movie", some 2003, "Dramas", "", "US"⟩,
   ⟨"t5", "Movie", some 2004, "Dramas", "", "US"⟩,
   ⟨"t6", "Movie", some 2005, "Dramas", "", "US"⟩]

/-- Witness for C7 on `cat7`. -/
theorem dropdown_threshold_iff_witness :
    ("X" ∈ get_dropdown_options.options_directors cat7
        ↔ 1 < get_dropdown_options.director_counts cat7 "X") ∧
    ("US" ∈ get_dropdown_options.options_countries cat7
        ↔ 5 < get_dropdown_options.country_counts cat7 "US") :=
  dropdown_threshold_iff cat7 "X" "US" (by decide) (by decide)

/-! ## C8: the two-key ranking is stable on exact ties -/

theorem pair_sublist_of_pairwise_lt {α : Type _} {f : α → Nat} :
    ∀ {l : List α}, l.Pairwise (fun a b => f a < f b) →
      ∀ {p q : α}, p ∈ l → q ∈ l → f p < f q → [p, q].Sublist l := by
  intro l
  induction l with
  | nil => intro _ p q hpm; cases hpm
  | cons x t ih =>
    intro hpw p q hpm hqm hlt
    rcases List.pairwise_cons.mp hpw with ⟨hx, ht⟩
    rcases List.mem_cons.mp hpm with rfl | hpt
    · rcases List.mem_cons.mp hqm with rfl | hqt
      · exact absurd hlt (Nat.lt_irrefl _)
      · exact (List.singleton_sublist.mpr hqt).cons₂ p
    · rcases List.mem_cons.mp hqm with rfl | hqt
      · exact absurd (Nat.lt_trans (hx p hpt) hlt) (Nat.lt_irrefl _)
      · exact (ih ht hpt hqt hlt).cons x

theorem pair_sublist_take {α : Type _} {p q : α} :
    ∀ (l : List α), l.Nodup → [p, q].Sublist l →
      ∀ (m : Nat), q ∈ l.take m → [p, q].Sublist (l.take m) := by
  intro l
  induction l with
  | nil => intro _ hsub; simp at hsub
  | cons x t ih =>
    intro hnd hsub m hq
    cases m with
    | zero => simp at hq
    | succ m' =>
      rw [List.take_succ_cons] at hq ⊢
      cases hsub with
      | cons _ hs' =>
        have hqt : q ∈ t := hs'.subset (by simp)
        have hqmem : q ∈ List.take m' t := by
          rcases List.mem_cons.mp hq with rfl | hmem
          · exact absurd hqt (List.nodup_cons.mp hnd).1
          · exact hmem
        exact (ih (List.nodup_cons.mp hnd).2 hs' m' hqmem).cons x
      | cons₂ _ hs' =>
        have hqt : q ∈ t := hs'.subset (by simp)
        have hqmem : q ∈ List.take m' t := by
          rcases List.mem_cons.mp hq with rfl | hmem
          · exact absurd hqt (List.nodup_cons.mp hnd).1
          · exact hmem
        exact (List.singleton_sublist.mpr hqmem).cons₂ p

theorem rowLE_of_tie {p q : Nat × TitleRecord}
    (hs : popularity_score p.2 = popularity_score q.2)
    (hy : p.2.release_year = q.2.release_year) : rowLE p q = true := by
  unfold rowLE
  rw [if_pos hs, hy]
  cases q.2.release_year with
  | none => rfl
  | some y => simp [yearGE]

theorem filteredRows_nodup (catalog : List TitleRecord) (g d c : Option String)
    (ct : String) (my : Int) : (filteredRows catalog g d c ct my).Nodup :=
  (pairwise_fst_lt_filteredRows catalog g d c ct my).imp
    (fun hab heq => absurd (heq ▸ hab) (Nat.lt_irrefl _))

/-- C8: the ranking is a stable sort on (`popularity_score` desc,
`release_year` desc): two returned rows with identical score and year
appear in the result in their original catalog order (row indices are the
original pandas positions). -/
theorem ranking_stable_on_ties (catalog : List TitleRecord) (g d c : Option String)
    (ct : String) (count my : Int) (p q : Nat × TitleRecord)
    (hp : p ∈ get_smart_recommendations catalog g d c ct count my)
    (hq : q ∈ get_smart_recommendations catalog g d c ct count my)
    (hs : popularity_score p.2 = popularity_score q.2)
    (hy : p.2.release_year = q.2.release_year)
    (hidx : p.1 < q.1) :
    [p, q].Sublist (get_smart_recommendations catalog g d c ct count my) := by
  have hpf := mem_result_mem_filteredRows hp
  have hqf := mem_result_mem_filteredRows hq
  have hsubF : [p, q].Sublist (filteredRows catalog g d c ct my) :=
    pair_sublist_of_pairwise_lt (f := Prod.fst)
      (pairwise_fst_lt_filteredRows catalog g d c ct my) hpf hqf hidx
  have hsubS : [p, q].Sublist (sortedRows (filteredRows catalog g d c ct my)) :=
    List.pair_sublist_insertionSort (rowLE_of_tie hs hy) hsubF
  have hndS : (sortedRows (filteredRows catalog g d c ct my)).Nodup :=
    (sortedRows_perm _).nodup_iff.mpr (filteredRows_nodup catalog g d c ct my)
  unfold get_smart_recommendations at hq ⊢
  by_cases hE : (filteredRows catalog g d c ct my).isEmpty
  · rw [List.isEmpty_iff] at hE
    rw [hE] at hpf
    cases hpf
  · rw [if_neg hE] at hq ⊢
    obtain ⟨k, hk⟩ := dfHead_eq_take count (sortedRows (filteredRows catalog g d c ct my))
    rw [hk] at hq ⊢
    exact pair_sublist_take _ hndS hsubS k hq

/-- Witness for C8: two tied rows of a concrete call keep catalog order. -/
theorem ranking_stable_on_ties_witness :
    [((0 : Nat), rTieA), ((1 : Nat), rTieB)].Sublist
      (get_smart_recommendations [rTieA, rTieB] none none none "Both" 10 1900) := by
  have h1 : popularity_score rTieA = popularity_score rTieB := rfl
  have h2 : yearGE rTieA.release_year rTieB.release_year = true := by decide
  have h3 : yearAtLeast rTieA.release_year 1900 = true := by decide
  have h4 : yearAtLeast rTieB.release_year 1900 = true := by decide
  have hres : get_smart_recommendations [rTieA, rTieB] none none none "Both" 10 1900
      = [((0 : Nat), rTieA), ((1 : Nat), rTieB)] := by
    simp [get_smart_recommendations, filteredRows, List.enum, passesFilter, matchOpt,
      typePass, h1, h2, h3, h4, sortedRows, List.insertionSort, List.orderedInsert,
      rowLE, dfHead]
  exact ranking_stable_on_ties [rTieA, rTieB] none none none "Both" 10 1900
    (0, rTieA) (1, rTieB) (by rw [hres]; simp) (by rw [hres]; simp) rfl rfl
    (by decide)

/-! ## C10: the analyzer tallies the empty-string token -/

theorem analyzer_count_empty_aux (f : TitleRecord → String) (data : List TitleRecord)
    (hclean : ∀ r ∈ data, f r ≠ "" → "" ∉ splitStrip (f r)) :
    (data.flatMap (fun r => splitStrip (f r))).count ""
      = (data.filter (fun r => f r == "")).length := by
  induction data with
  | nil => rfl
  | cons r t ih =>
    have ht : ∀ x ∈ t, f x ≠ "" → "" ∉ splitStrip (f x) :=
      fun x hx => hclean x (List.mem_cons_of_mem _ hx)
    have hsplit : splitStrip "" = [""] := by decide
    rw [List.flatMap_cons, List.count_append, ih ht]
    by_cases hr : f r = ""
    · rw [hr, hsplit]
      simp [List.filter_cons, hr]
      omega
    · have hnot : "" ∉ splitStrip (f r) := hclean r (List.mem_cons_self _ _) hr
      rw [List.count_eq_zero.mpr hnot]
      simp [List.filter_cons, hr]

/-- C10 (amended): the analyzer, unlike the option indexer, does not skip
empty `listed_in` (resp. `country`) fields — splitting `""` yields the
single token `""` — so in any catalog where the non-empty `listed_in`
(resp. `country`) fields contribute no empty token after split-and-strip,
the genre (resp. country) tally maps `""` to exactly the number `n > 0`
of records with an empty field, and `""` is a tallied token able to reach
the top-10 list. -/
theorem analyzer_empty_token_tally (data : List TitleRecord) :
    ((∀ r ∈ data, r.listed_in ≠ "" → "" ∉ splitStrip r.listed_in) →
      0 < (data.filter (fun r => r.listed_in == "")).length →
      (analyze_netflix_data.all_genres data).count ""
          = (data.filter (fun r => r.listed_in == "")).length ∧
        "" ∈ analyze_netflix_data.all_genres data) ∧
    ((∀ r ∈ data, r.country ≠ "" → "" ∉ splitStrip r.country) →
      0 < (data.filter (fun r => r.country == "")).length →
      (analyze_netflix_data.all_countries data).count ""
          = (data.filter (fun r => r.country == "")).length ∧
        "" ∈ analyze_netflix_data.all_countries data) := by
  constructor
  · intro hclean hpos
    have h : (analyze_netflix_data.all_genres data).count ""
        = (data.filter (fun r => r.listed_in == "")).length :=
      analyzer_count_empty_aux (fun r => r.listed_in) data hclean
    exact ⟨h, List.count_pos_iff.mp (by rw [h]; exact hpos)⟩
  · intro hclean hpos
    have h : (analyze_netflix_data.all_countries data).count ""
        = (data.filter (fun r => r.country == "")).length :=
      analyzer_count_empty_aux (fun r => r.country) data hclean
    exact ⟨h, List.count_pos_iff.mp (by rw [h]; exact hpos)⟩

/-- A record with an empty `listed_in` and an empty `country`. -/
def c10A : TitleRecord := ⟨"C10A", "Movie", some 2000, "", "", ""⟩

/-- A record with a normal `listed_in` and a normal `country`. -/
def c10B : TitleRecord := ⟨"C10B", "Movie", some 2000, "Dramas", "", "US"⟩

/-- A record whose trailing comma also produces an empty token. -/
def c10C : TitleRecord := ⟨"C10C", "Movie", some 2000, "X,", "", ""⟩

/-- Witness for C10 on a two-record catalog with one empty `listed_in`
and one empty `country`. -/
theorem analyzer_empty_token_tally_witness :
    ((analyze_netflix_data.all_genres [c10A, c10B]).count ""
        = ([c10A, c10B].filter (fun r => r.listed_in == "")).length ∧
      "" ∈ analyze_netflix_data.all_genres [c10A, c10B]) ∧
    ((analyze_netflix_data.all_countries [c10A, c10B]).count ""
        = ([c10A, c10B].filter (fun r => r.country == "")).length ∧
      "" ∈ analyze_netflix_data.all_countries [c10A, c10B]) :=
  ⟨(analyzer_empty_token_tally [c10A, c10B]).1 (by decide) (by decide),
   (analyzer_empty_token_tally [c10A, c10B]).2 (by decide) (by decide)⟩

/-- Counterexample for C10 as stated: with one empty-`listed_in` record
(`n = 1`) next to a record listing `"X,"`, the tally holds `("", 2)`, not
`("", 1)`. -/
theorem analyzer_empty_token_cex :
    (analyze_netflix_data.all_genres [c10A, c10C]).count "" = 2 ∧
    ([c10A, c10C].filter (fun r => r.listed_in == "")).length = 1 ∧
    (analyze_netflix_data.all_genres [c10A, c10C]).count ""
      ≠ ([c10A, c10C].filter (fun r => r.listed_in == "")).length :=
  ⟨by decide, by decide, by decide⟩
